import Mathlib

/-!
# Verification of the quality-score engine

Shallow embedding of the normalization-and-scoring engine of the
`github-workflows` repository (`scripts/calculate_score.py` and
`scripts/run_tests.py`), together with proofs settling the frozen claims
about it.

Numeric conventions: Python numbers are modelled as `ℚ` (percentages,
fractional scores) and `ℤ`/`ℕ` (integer scores and counts).  Python's
built-in `round` (round half to even, a.k.a. banker's rounding) applied
to the exact value of its argument is `roundEven` below; `round(x, 1)` is
`round1`.  CPython applies this rounding to the binary64 value of a float
argument, which can differ from the exact decimal reading of the same
literal; where that difference is observable (claim C6) the binary64
round-to-nearest itself is modelled explicitly via `roundToUlp`.
-/

namespace QualityScore

/-- Python's `round(q)` on rationals: round half to even. -/
def roundEven (q : ℚ) : ℤ :=
  if q - ⌊q⌋ < 1/2 then ⌊q⌋
  else if 1/2 < q - ⌊q⌋ then ⌊q⌋ + 1
  else if ⌊q⌋ % 2 = 0 then ⌊q⌋ else ⌊q⌋ + 1

/-- Python's `round(q, 1)` evaluated on the exact value `q`: round to one
decimal place, ties to even.  This is the correctly-rounded decimal step
of CPython's float `round`; on a float argument CPython applies it to the
binary64 value of the argument (see `roundToUlp` and claim C6), which
agrees with `round1` on the rational reading of a literal only when the
binary representation error does not straddle a decimal boundary. -/
def round1 (q : ℚ) : ℚ := (roundEven (q * 10) : ℚ) / 10

lemma roundEven_bounds (q : ℚ) : ⌊q⌋ ≤ roundEven q ∧ roundEven q ≤ ⌊q⌋ + 1 := by
  unfold roundEven
  split_ifs <;> omega

lemma roundEven_mono {x y : ℚ} (h : x ≤ y) : roundEven x ≤ roundEven y := by
  have hf : ⌊x⌋ ≤ ⌊y⌋ := Int.floor_le_floor h
  rcases lt_or_eq_of_le hf with hlt | heq
  · have h1 := (roundEven_bounds x).2
    have h2 := (roundEven_bounds y).1
    omega
  · have hxk : (⌊x⌋ : ℚ) = (⌊y⌋ : ℚ) := by exact_mod_cast heq
    unfold roundEven
    rw [← heq]
    have hxy : x - (⌊x⌋ : ℚ) ≤ y - (⌊x⌋ : ℚ) := by linarith
    split_ifs <;> first | omega | linarith

lemma roundEven_intCast (n : ℤ) : roundEven (n : ℚ) = n := by
  unfold roundEven
  rw [Int.floor_intCast]
  have : (n : ℚ) - (n : ℚ) = 0 := by ring
  rw [this]
  norm_num

lemma roundEven_zero : roundEven 0 = 0 := by
  have := roundEven_intCast 0
  simpa using this

/-- If `(n : ℚ) ≤ q` and `q - n < 1/2` then `roundEven q = n`. -/
lemma roundEven_eq_of_lt (q : ℚ) (n : ℤ) (h1 : (n : ℚ) ≤ q) (h2 : q - n < 1/2) :
    roundEven q = n := by
  have hfl : ⌊q⌋ = n := by
    rw [Int.floor_eq_iff]
    constructor
    · exact h1
    · linarith
  unfold roundEven
  rw [hfl]
  rw [if_pos h2]

/-- If `1/2 < q - n` and `q < n + 1` then `roundEven q = n + 1`. -/
lemma roundEven_eq_of_gt (q : ℚ) (n : ℤ) (h1 : 1/2 < q - n) (h2 : q < (n : ℚ) + 1) :
    roundEven q = n + 1 := by
  have hfl : ⌊q⌋ = n := by
    rw [Int.floor_eq_iff]
    constructor
    · linarith
    · linarith
  unfold roundEven
  rw [hfl]
  rw [if_neg (by linarith), if_pos h1]

/-- Exact tie with even floor rounds down. -/
lemma roundEven_eq_of_half_even (q : ℚ) (n : ℤ) (h : q - n = 1/2) (hp : n % 2 = 0) :
    roundEven q = n := by
  have hfl : ⌊q⌋ = n := by
    rw [Int.floor_eq_iff]
    constructor
    · linarith
    · linarith
  unfold roundEven
  rw [hfl]
  rw [if_neg (by linarith), if_neg (by linarith), if_pos hp]

/-- Exact tie with odd floor rounds up. -/
lemma roundEven_eq_of_half_odd (q : ℚ) (n : ℤ) (h : q - n = 1/2) (hp : ¬ n % 2 = 0) :
    roundEven q = n + 1 := by
  have hfl : ⌊q⌋ = n := by
    rw [Int.floor_eq_iff]
    constructor
    · linarith
    · linarith
  unfold roundEven
  rw [hfl]
  rw [if_neg (by linarith), if_neg (by linarith), if_neg hp]

/-- Key algebraic fact behind the duplication-score identity:
rounding a quantity and its complement to `100` always sums back to `100`. -/
lemma roundEven_add_complement (t : ℚ) : roundEven (100 - t) + roundEven t = 100 := by
  set k : ℤ := ⌊t⌋ with hk
  have hfl : (k : ℚ) ≤ t := Int.floor_le t
  have hfu : t < (k : ℚ) + 1 := Int.lt_floor_add_one t
  rcases lt_trichotomy (t - (k : ℚ)) (1/2) with hlt | heq | hgt
  · rcases eq_or_lt_of_le hfl with hz | hz
    · -- `t` is exactly the integer `k`
      have e1 : roundEven t = k := roundEven_eq_of_lt t k hfl hlt
      have e2 : roundEven (100 - t) = 100 - k := by
        apply roundEven_eq_of_lt
        · push_cast
          linarith
        · push_cast
          linarith
      rw [e1, e2]
      ring
    · -- `0 < t - k < 1/2`, so the complement has fractional part above `1/2`
      have e1 : roundEven t = k := roundEven_eq_of_lt t k hfl hlt
      have e2 : roundEven (100 - t) = (99 - k) + 1 := by
        apply roundEven_eq_of_gt
        · push_cast
          linarith
        · push_cast
          linarith
      rw [e1, e2]
      ring
  · -- exact tie on both sides; parity of `k` and `99 - k` are opposite
    by_cases hp : k % 2 = 0
    · have e1 : roundEven t = k := roundEven_eq_of_half_even t k heq hp
      have e2 : roundEven (100 - t) = (99 - k) + 1 := by
        apply roundEven_eq_of_half_odd
        · push_cast
          linarith
        · omega
      rw [e1, e2]
      ring
    · have e1 : roundEven t = k + 1 := roundEven_eq_of_half_odd t k heq hp
      have e2 : roundEven (100 - t) = 99 - k := by
        apply roundEven_eq_of_half_even
        · push_cast
          linarith
        · omega
      rw [e1, e2]
      ring
  · have e1 : roundEven t = k + 1 := roundEven_eq_of_gt t k hgt hfu
    have e2 : roundEven (100 - t) = 99 - k := by
      apply roundEven_eq_of_lt
      · push_cast
        linarith
      · push_cast
        linarith
    rw [e1, e2]
    ring

lemma round1_nonneg {q : ℚ} (h : 0 ≤ q) : 0 ≤ round1 q := by
  unfold round1
  have h10 : (0 : ℚ) ≤ q * 10 := by linarith
  have : roundEven 0 ≤ roundEven (q * 10) := roundEven_mono h10
  rw [roundEven_zero] at this
  have : (0 : ℚ) ≤ (roundEven (q * 10) : ℚ) := by exact_mod_cast this
  linarith

lemma round1_intCast (n : ℤ) : round1 (n : ℚ) = (n : ℚ) := by
  unfold round1
  have h : (n : ℚ) * 10 = ((n * 10 : ℤ) : ℚ) := by push_cast; ring
  rw [h, roundEven_intCast]
  push_cast
  ring

/-! ## JSON values

A small model of the JSON documents the parsers consume
(`json.load` output in `calculate_score.py`).  Python dicts are modelled
as association lists; `lookupKey` is `dict.get` returning the first
binding (Python dicts cannot hold duplicate keys, so this is exact). -/

inductive Json where
  | null : Json
  | bool (b : Bool) : Json
  | num (q : ℚ) : Json
  | str (s : String) : Json
  | arr (xs : List Json) : Json
  | obj (kvs : List (String × Json)) : Json
deriving BEq

def lookupKey (key : String) : List (String × Json) → Option Json
  | [] => none
  | (k, v) :: rest => if k = key then some v else lookupKey key rest

/-- Python truthiness of a JSON value (`if not data: ...`). -/
def Json.falsy : Json → Bool
  | Json.null => true
  | Json.bool b => !b
  | Json.num q => q = 0
  | Json.str s => s = ""
  | Json.arr xs => xs.isEmpty
  | Json.obj kvs => kvs.isEmpty

/-- Numeric reading of a JSON value where the Python code does arithmetic
with it (`True`/`False` act as `1`/`0`).  Values of other types would make
the Python code raise downstream; they are mapped to `0` here and are not
exercised by any claim. -/
def Json.toQ : Json → ℚ
  | Json.num q => q
  | Json.bool b => if b then 1 else 0
  | _ => 0

/-- Count reading of a JSON value (see `Json.toQ`). -/
def Json.toCount : Json → ℕ
  | Json.num q => ⌊q⌋.toNat
  | Json.bool b => if b then 1 else 0
  | _ => 0

/-- List reading of a JSON value; the Python code stores the raw value and
only ever slices it (`[:n]`), which no claim exercises for non-lists. -/
def Json.toList : Json → List Json
  | Json.arr xs => xs
  | _ => []

/-! ## Normalized records (data model of §3)

These are exactly the dictionaries built by the parsers in
`calculate_score.py` and consumed by `calculate_score`. -/

/-- A single normalized linter finding (the `entry` dicts).  Field values
are stored raw, exactly as Python does. -/
structure Issue where
  file : Json
  line : Json
  code : Json
  message : Json
deriving BEq

/-- Result record of `parse_ruff_results` / `parse_eslint_results` /
`parse_swiftlint_results` / `parse_detekt_results`. -/
structure LinterData where
  complexity_issues : List Issue
  smell_issues : List Issue
  total_issues : ℕ
deriving BEq

/-- A pairwise duplication block from `parse_jscpd_results`. -/
structure Duplication where
  first_file : Json
  second_file : Json
  lines : Json
  tokens : Json
deriving BEq

/-- Result record of `parse_jscpd_results`. -/
structure JscpdData where
  percentage : ℚ
  duplications : List Duplication
  total_lines : ℕ
  duplicated_lines : ℕ
deriving BEq

/-- Result record of `parse_test_results` (the normalized test record fed
to the scorer). -/
structure TestData where
  tests_run : ℕ
  tests_passed : ℕ
  tests_failed : ℕ
  tests_skipped : ℕ
  failures_details : List Json
  coverage_percentage : ℚ
  coverage_by_file : List Json
  uncovered_functions : List Json
  unit_tests_found : Bool
  unit_tests_count : ℕ
  unit_test_files : List Json
  e2e_tests_found : Bool
  e2e_tests_count : ℕ
  coverage_total_lines : ℕ
  coverage_covered_lines : ℕ
deriving BEq

/-- The only part of the quality configuration `calculate_score` reads:
`config.get("e2e", {}).get("required", False)`. -/
structure Config where
  e2e_required : Bool
deriving BEq

def defaultLinterData : LinterData :=
  { complexity_issues := [], smell_issues := [], total_issues := 0 }

def defaultJscpdData : JscpdData :=
  { percentage := 0, duplications := [], total_lines := 0, duplicated_lines := 0 }

def defaultTestData : TestData :=
  { tests_run := 0, tests_passed := 0, tests_failed := 0, tests_skipped := 0
    failures_details := [], coverage_percentage := 0, coverage_by_file := []
    uncovered_functions := [], unit_tests_found := false, unit_tests_count := 0
    unit_test_files := [], e2e_tests_found := false, e2e_tests_count := 0
    coverage_total_lines := 0, coverage_covered_lines := 0 }

/-! ## Scoring sub-formulas (`calculate_score.py` lines 271–323) -/

/-- `calculate_complexity_score`: returns `(score, penalty)`. -/
def calculate_complexity_score (issues : List Issue) (max_points : ℤ := 15) : ℤ × ℤ :=
  let penalty_per_issue : ℤ := 4
  let penalty := min max_points (issues.length * penalty_per_issue)
  let score := max_points - penalty
  (max 0 score, penalty)

/-- `calculate_smells_score`: returns `(score, penalty)`. -/
def calculate_smells_score (issues : List Issue) (max_points : ℤ := 15) : ℤ × ℤ :=
  let penalty_per_issue : ℤ := 3
  let penalty := min max_points (issues.length * penalty_per_issue)
  let score := max_points - penalty
  (max 0 score, penalty)

/-- `calculate_duplication_score`: returns `(score, penalty)`, both rounded
to one decimal place. -/
def calculate_duplication_score (percentage : ℚ) (max_points : ℚ := 10) : ℚ × ℚ :=
  let penalty := min max_points (percentage * 1)
  let score := max_points - penalty
  (max 0 (round1 score), round1 penalty)

/-! ### Binary64 semantics of the duplication formula at percentage 0.15

`calculate_duplication_score` above reads the formula over exact
rationals.  The Python program computes it on IEEE-754 binary64 doubles.
Binary64 round-to-nearest, ties-to-even of a real `q` whose result lies
in a binade with unit-in-last-place `u` is `roundToUlp u q`; the
definitions below evaluate the program's duplication computation at the
reachable input percentage `0.15` (binades: `0.15 ∈ [1/8, 1/4)` with ulp
`2^-55`, `10 - 0.15 ∈ [8, 16)` with ulp `2^-49`, `0.1 ∈ [1/16, 1/8)` with
ulp `2^-56`).  CPython's `round(x, 1)` on a double first rounds the exact
value of `x` to one decimal place (`round1`, correctly rounded, ties to
even) and re-reads the decimal result as a double. -/

/-- Round to the nearest integer multiple of `u`, ties to the even
multiple: IEEE-754 round-to-nearest within a binade of ulp `u`. -/
def roundToUlp (u q : ℚ) : ℚ := (roundEven (q / u) : ℚ) * u

/-- The binary64 value of the JSON literal `0.15`: the duplication
percentage the program actually holds after `json.load`. -/
def double015 : ℚ := roundToUlp (1 / 2 ^ 55) (15 / 100)

/-- The float difference `10.0 - 0.15`: the unrounded duplication score at
percentage `0.15`, since `min(10, 0.15 * 1.0)` is exact in binary64. -/
def doubleScoreRaw : ℚ := roundToUlp (1 / 2 ^ 49) (10 - double015)

/-- CPython `round(x, 1)` on a double whose decimal rounding lies in
`[8, 16)`. -/
def pyRound1Large (x : ℚ) : ℚ := roundToUlp (1 / 2 ^ 49) (round1 x)

/-- CPython `round(x, 1)` on a double whose decimal rounding lies in
`[1/16, 1/8)`. -/
def pyRound1Small (x : ℚ) : ℚ := roundToUlp (1 / 2 ^ 56) (round1 x)

/-- The float sum of the score and penalty doubles the program returns at
percentage `0.15` (its result lies in `[8, 16)`). -/
def doubleSum015 : ℚ :=
  roundToUlp (1 / 2 ^ 49) (pyRound1Large doubleScoreRaw + pyRound1Small double015)

/-- `calculate_coverage_score`: step function on the coverage percentage. -/
def calculate_coverage_score (percentage : ℚ) (max_points : ℤ := 20) : ℤ :=
  if 80 ≤ percentage then max_points
  else if 60 ≤ percentage then 15
  else if 40 ≤ percentage then 10
  else if 20 ≤ percentage then 5
  else 0

/-- `calculate_test_results_score`: step function on the pass rate. -/
def calculate_test_results_score (passed failed : ℕ) (max_points : ℤ := 10) : ℤ :=
  let total := passed + failed
  if total = 0 then 0
  else
    let pass_rate : ℚ := ((passed : ℚ) / (total : ℚ)) * 100
    if pass_rate = 100 then max_points
    else if 95 ≤ pass_rate then 8
    else if 80 ≤ pass_rate then 5
    else 0

/-! ## The scorer (`calculate_score`, lines 326–482)

The local variables of the Python function are lifted to named
definitions so the theorems below can speak about them; `calculate_score`
assembles the same output dictionary from them. -/

def all_complexity_issues (ruff eslint swiftlint detekt : LinterData) : List Issue :=
  ruff.complexity_issues ++ eslint.complexity_issues ++
    swiftlint.complexity_issues ++ detekt.complexity_issues

def all_smell_issues (ruff eslint swiftlint detekt : LinterData) : List Issue :=
  ruff.smell_issues ++ eslint.smell_issues ++
    swiftlint.smell_issues ++ detekt.smell_issues

def code_quality_total (ruff eslint swiftlint detekt : LinterData)
    (jscpd : JscpdData) : ℚ :=
  ((calculate_complexity_score (all_complexity_issues ruff eslint swiftlint detekt)).1 : ℚ) +
    ((calculate_smells_score (all_smell_issues ruff eslint swiftlint detekt)).1 : ℚ) +
    (calculate_duplication_score jscpd.percentage).1

def test_health_total (test_data : TestData) : ℤ :=
  calculate_coverage_score test_data.coverage_percentage +
    calculate_test_results_score test_data.tests_passed test_data.tests_failed

/-- `20 if test_data["unit_tests_found"] and test_data["tests_failed"] == 0 else 0` -/
def unit_tests_score (test_data : TestData) : ℤ :=
  if test_data.unit_tests_found ∧ test_data.tests_failed = 0 then 20 else 0

/-- `None` models the Python `None` ("N/A") used when e2e is not required. -/
def e2e_score (config : Config) (test_data : TestData) : Option ℤ :=
  if config.e2e_required then some (if test_data.e2e_tests_found then 10 else 0) else none

def test_presence_max (config : Config) : ℤ :=
  if config.e2e_required then 30 else 20

def test_presence_total (config : Config) (test_data : TestData) : ℤ :=
  unit_tests_score test_data + (e2e_score config test_data).getD 0

def total_earned (config : Config) (ruff eslint swiftlint detekt : LinterData)
    (jscpd : JscpdData) (test_data : TestData) : ℚ :=
  code_quality_total ruff eslint swiftlint detekt jscpd +
    (test_health_total test_data : ℚ) + (test_presence_total config test_data : ℚ)

def total_max (config : Config) : ℤ :=
  40 + 30 + test_presence_max config

def final_score (config : Config) (ruff eslint swiftlint detekt : LinterData)
    (jscpd : JscpdData) (test_data : TestData) : ℤ :=
  if 0 < total_max config then
    roundEven (total_earned config ruff eslint swiftlint detekt jscpd test_data /
      (total_max config : ℚ) * 100)
  else 0

/-! Output report tree (the dictionary returned by `calculate_score`). -/

structure ComplexityBreakdown where
  score : ℤ
  max : ℤ
  penalty : ℤ
  issues_count : ℕ
  issues : List Issue
deriving BEq

structure SmellsBreakdown where
  score : ℤ
  max : ℤ
  penalty : ℤ
  issues_count : ℕ
  issues : List Issue
deriving BEq

structure DuplicationBreakdown where
  score : ℚ
  max : ℤ
  penalty : ℚ
  percentage : ℚ
  duplications : List Duplication
deriving BEq

structure CodeQualityBreakdown where
  total : ℚ
  max : ℤ
  complexity : ComplexityBreakdown
  smells : SmellsBreakdown
  duplication : DuplicationBreakdown
deriving BEq

structure CoverageBreakdown where
  score : ℤ
  max : ℤ
  percentage : ℚ
  total_lines : ℕ
  covered_lines : ℕ
  by_file : List Json
  uncovered_functions : List Json
deriving BEq

structure ResultsBreakdown where
  score : ℤ
  max : ℤ
  tests_run : ℕ
  tests_passed : ℕ
  tests_failed : ℕ
  tests_skipped : ℕ
  failures : List Json
deriving BEq

structure TestHealthBreakdown where
  total : ℤ
  max : ℤ
  coverage : CoverageBreakdown
  results : ResultsBreakdown
deriving BEq

structure UnitTestsBreakdown where
  score : ℤ
  max : ℤ
  found : Bool
  count : ℕ
  files : List Json
deriving BEq

/-- `score`/`max` are `none` when reported as the string `"N/A"`. -/
structure E2eBreakdown where
  score : Option ℤ
  max : Option ℤ
  required : Bool
  found : Bool
  count : ℕ
deriving BEq

structure TestPresenceBreakdown where
  total : ℤ
  max : ℤ
  unit_tests : UnitTestsBreakdown
  e2e : E2eBreakdown
deriving BEq

structure Breakdown where
  code_quality : CodeQualityBreakdown
  test_health : TestHealthBreakdown
  test_presence : TestPresenceBreakdown
deriving BEq

structure RawData where
  total_linter_issues : ℕ
  complexity_issues_count : ℕ
  smell_issues_count : ℕ
  duplication_percentage : ℚ
  duplication_lines : ℕ
  coverage_percentage : ℚ
  tests_total : ℕ
  tests_passed : ℕ
  tests_failed : ℕ
deriving BEq

structure ScoreResult where
  final_score : ℤ
  threshold : ℤ
  passed : Bool
  breakdown : Breakdown
  raw_data : RawData
  files_analyzed : List String
  files_count : ℕ
deriving BEq

/-- The scorer: `calculate_score(config, changed_files, ruff_data,
eslint_data, swiftlint_data, detekt_data, jscpd_data, test_data,
threshold=70)`. -/
def calculate_score (config : Config) (changed_files : List String)
    (ruff_data eslint_data swiftlint_data detekt_data : LinterData)
    (jscpd_data : JscpdData) (test_data : TestData) (threshold : ℤ := 70) :
    ScoreResult :=
  let allComplexity := all_complexity_issues ruff_data eslint_data swiftlint_data detekt_data
  let allSmells := all_smell_issues ruff_data eslint_data swiftlint_data detekt_data
  let complexityPair := calculate_complexity_score allComplexity
  let smellsPair := calculate_smells_score allSmells
  let duplicationPair := calculate_duplication_score jscpd_data.percentage
  let coverageScore := calculate_coverage_score test_data.coverage_percentage
  let testResultsScore :=
    calculate_test_results_score test_data.tests_passed test_data.tests_failed
  let e2eRequired := config.e2e_required
  let unitScore := unit_tests_score test_data
  let e2eOpt := e2e_score config test_data
  let fs := final_score config ruff_data eslint_data swiftlint_data detekt_data
    jscpd_data test_data
  { final_score := fs
    threshold := threshold
    passed := decide (threshold ≤ fs)
    breakdown :=
      { code_quality :=
          { total := round1 (code_quality_total ruff_data eslint_data swiftlint_data
              detekt_data jscpd_data)
            max := 40
            complexity :=
              { score := complexityPair.1, max := 15, penalty := complexityPair.2
                issues_count := allComplexity.length, issues := allComplexity.take 10 }
            smells :=
              { score := smellsPair.1, max := 15, penalty := smellsPair.2
                issues_count := allSmells.length, issues := allSmells.take 10 }
            duplication :=
              { score := duplicationPair.1, max := 10, penalty := duplicationPair.2
                percentage := jscpd_data.percentage
                duplications := jscpd_data.duplications.take 5 } }
        test_health :=
          { total := test_health_total test_data
            max := 30
            coverage :=
              { score := coverageScore, max := 20
                percentage := test_data.coverage_percentage
                total_lines := test_data.coverage_total_lines
                covered_lines := test_data.coverage_covered_lines
                by_file := test_data.coverage_by_file
                uncovered_functions := test_data.uncovered_functions.take 10 }
            results :=
              { score := testResultsScore, max := 10
                tests_run := test_data.tests_run
                tests_passed := test_data.tests_passed
                tests_failed := test_data.tests_failed
                tests_skipped := test_data.tests_skipped
                failures := test_data.failures_details.take 5 } }
        test_presence :=
          { total := test_presence_total config test_data
            max := test_presence_max config
            unit_tests :=
              { score := unitScore, max := 20
                found := test_data.unit_tests_found
                count := test_data.unit_tests_count
                files := test_data.unit_test_files.take 10 }
            e2e :=
              { score := e2eOpt
                max := if e2eRequired then some 10 else none
                required := e2eRequired
                found := test_data.e2e_tests_found
                count := test_data.e2e_tests_count } } }
    raw_data :=
      { total_linter_issues := ruff_data.total_issues + eslint_data.total_issues +
          swiftlint_data.total_issues + detekt_data.total_issues
        complexity_issues_count := allComplexity.length
        smell_issues_count := allSmells.length
        duplication_percentage := jscpd_data.percentage
        duplication_lines := jscpd_data.duplicated_lines
        coverage_percentage := test_data.coverage_percentage
        tests_total := test_data.tests_run
        tests_passed := test_data.tests_passed
        tests_failed := test_data.tests_failed }
    files_analyzed := changed_files
    files_count := changed_files.length }

/-! ## Path machinery (`run_tests.py`)

Character-level string operations backing `os.path.normpath` (POSIX),
`str.endswith` and the `in` substring test, used by the changed-file
correlator. -/

/-- `isPre pre s`: `pre` is a prefix of `s`. -/
def isPre : List Char → List Char → Bool
  | [], _ => true
  | _ :: _, [] => false
  | a :: as, b :: bs => a = b && isPre as bs

/-- `str.endswith`: `endsWithL s suff` is true iff `suff` is a suffix of `s`. -/
def endsWithL (s suff : List Char) : Bool := isPre suff.reverse s.reverse

/-- Python's `needle in hay` substring test. -/
def containsL : List Char → List Char → Bool
  | needle, [] => isPre needle []
  | needle, c :: rest => isPre needle (c :: rest) || containsL needle rest

/-- `str.split('/')` (CPython semantics: empty pieces are kept). -/
def splitOnSlash : List Char → List (List Char)
  | [] => [[]]
  | c :: rest =>
    let r := splitOnSlash rest
    if c = '/' then [] :: r
    else
      match r with
      | [] => [[c]]
      | h :: t => (c :: h) :: t

/-- `os.path.normpath` for POSIX paths (CPython `posixpath.normpath`). -/
def normpathL (p : List Char) : List Char :=
  if p = [] then ['.']
  else
    let initSlashes : ℕ :=
      if isPre ['/'] p then
        if isPre ['/', '/'] p && !(isPre ['/', '/', '/'] p) then 2 else 1
      else 0
    let comps := splitOnSlash p
    let newComps := comps.foldl (fun acc comp =>
      if comp = [] ∨ comp = ['.'] then acc
      else if comp ≠ ['.', '.'] ∨ (initSlashes = 0 ∧ acc = []) ∨
          acc.getLast? = some ['.', '.'] then acc ++ [comp]
      else acc.dropLast) ([] : List (List Char))
    let joined := List.intercalate ['/'] newComps
    let out := List.replicate initSlashes '/' ++ joined
    if out = [] then ['.'] else out

def normpathStr (s : String) : String := ⟨normpathL s.data⟩

/-- The changed-file correlation test of `parse_cobertura_xml`
(`run_tests.py` lines 127–131), for one candidate `filename` from the
report and one already-normalized changed file `cf`:
`filename_norm.endswith(cf) or cf.endswith(filename_norm)
 or filename in cf or cf in filename`.
Note that the two substring tests use the raw `filename`. -/
def pathCorrelates (filename cf : String) : Bool :=
  let filename_norm := normpathStr filename
  endsWithL filename_norm.data cf.data || endsWithL cf.data filename_norm.data ||
    containsL filename.data cf.data || containsL cf.data filename.data

/-- Modelled from the spec (§4.2), for comparison with `pathCorrelates`:
"normalize both the changed-file path and the candidate path …, then treat
them as correlated if either is a suffix of the other, or either is a
(sub)string of the other". -/
def specCorrelates (candidate changed : String) : Bool :=
  let a := normpathStr candidate
  let b := normpathStr changed
  endsWithL a.data b.data || endsWithL b.data a.data ||
    containsL a.data b.data || containsL b.data a.data

/-! ## Coverage parsers (`run_tests.py`)

The XML / text artifacts are modelled as already-deserialized documents;
`none` stands for an input file that is missing, unreadable or rejected by
the underlying deserializer (`ET.parse` / `open`), all of which the Python
code turns into the default record via its guard and `try`/`except`. -/

structure CoberturaLine where
  hits : ℤ
deriving BEq

structure CoberturaMethod where
  name : String
  line : String
  lines : List CoberturaLine
deriving BEq

structure CoberturaClass where
  filename : String
  lines : List CoberturaLine
  methods : List CoberturaMethod
deriving BEq

structure CoberturaPackage where
  classes : List CoberturaClass
deriving BEq

structure CoverageFileEntry where
  file : String
  total_lines : ℕ
  covered_lines : ℕ
  coverage : ℚ
deriving BEq

structure CoverageResult where
  total_lines : ℕ
  covered_lines : ℕ
  percentage : ℚ
  by_file : List CoverageFileEntry
  uncovered_functions : List String
deriving BEq

def defaultCoverageResult : CoverageResult :=
  { total_lines := 0, covered_lines := 0, percentage := 0, by_file := []
    uncovered_functions := [] }

/-- `cls.findall(".//line")` collects every `line` descendant of the class
element: the per-method lines (the `methods` element precedes the
class-level `lines` element in Cobertura documents) and the class-level
lines. -/
def classAllLines (cls : CoberturaClass) : List CoberturaLine :=
  (cls.methods.map (fun m => m.lines)).flatten ++ cls.lines

/-- `parse_cobertura_xml`.  `doc = none` models a missing file or an
`ET.parse` failure (both yield the default record in Python). -/
def parse_cobertura_xml (doc : Option (List CoberturaPackage))
    (changed_files : List String) : CoverageResult :=
  match doc with
  | none => defaultCoverageResult
  | some packages =>
    let changed_normalized := changed_files.map normpathStr
    let step := fun (res : CoverageResult) (cls : CoberturaClass) =>
      let filename := cls.filename
      let is_changed := changed_normalized.any (fun cf => pathCorrelates filename cf)
      if !is_changed then res
      else
        let allLines := classAllLines cls
        let file_total := allLines.length
        let file_covered := (allLines.filter (fun l => 0 < l.hits)).length
        if 0 < file_total then
          let file_pct : ℚ := ((file_covered : ℚ) / (file_total : ℚ)) * 100
          let uncovered := cls.methods.filterMap (fun m =>
            if m.lines.any (fun l => l.hits = 0) then
              some (filename ++ ":" ++ m.line ++ " (" ++ m.name ++ ")")
            else none)
          let fileEntry : CoverageFileEntry :=
            { file := filename, total_lines := file_total
              covered_lines := file_covered, coverage := round1 file_pct }
          { res with
              total_lines := res.total_lines + file_total
              covered_lines := res.covered_lines + file_covered
              by_file := res.by_file ++ [fileEntry]
              uncovered_functions := res.uncovered_functions ++ uncovered }
        else res
    let res := packages.foldl (fun r p => p.classes.foldl step r) defaultCoverageResult
    if 0 < res.total_lines then
      { res with
          percentage :=
            round1 (((res.covered_lines : ℚ) / (res.total_lines : ℚ)) * 100) }
    else res

/-- Python `int(str)` used on LCOV `DA:` hit counts: `none` means a
`ValueError` (Python additionally tolerates a leading `+` and underscores
between digits; those are not exercised here). -/
def pyInt? (s : String) : Option ℤ := s.trim.toInt?

/-- The line-processing loop of `parse_lcov`.  Returns the accumulated
result and whether the loop finished without raising; a `ValueError` from
`int(...)` aborts the loop, and the `except` branch then returns the
partially accumulated record with its percentage still at the default. -/
def lcovLoop (changed_normalized : List String) :
    List String → CoverageResult → Option String → ℕ → ℕ → CoverageResult × Bool
  | [], res, _, _, _ => (res, true)
  | l :: rest, res, current_file, file_total, file_covered =>
    let line := l.trim
    if line.startsWith "SF:" then
      lcovLoop changed_normalized rest res (some (line.drop 3)) 0 0
    else if line.startsWith "DA:" then
      match (line.drop 3).splitOn "," with
      | _ :: p1 :: _ =>
        match pyInt? p1 with
        | some hits =>
          lcovLoop changed_normalized rest res current_file (file_total + 1)
            (file_covered + if 0 < hits then 1 else 0)
        | none => (res, false)
      | _ => lcovLoop changed_normalized rest res current_file file_total file_covered
    else if line = "end_of_record" then
      match current_file with
      | some cf_file =>
        -- `and current_file`: the empty string is falsy in Python
        if cf_file = "" then
          lcovLoop changed_normalized rest res current_file file_total file_covered
        else
          let file_norm := normpathStr cf_file
          let is_changed := changed_normalized.any (fun cf =>
            endsWithL file_norm.data cf.data || endsWithL cf.data file_norm.data ||
              containsL cf_file.data cf.data || containsL cf.data cf_file.data)
          let fileEntry : CoverageFileEntry :=
            { file := cf_file, total_lines := file_total
              covered_lines := file_covered
              coverage := round1 (((file_covered : ℚ) / (file_total : ℚ)) * 100) }
          let res' :=
            if is_changed ∧ 0 < file_total then
              { res with
                  total_lines := res.total_lines + file_total
                  covered_lines := res.covered_lines + file_covered
                  by_file := res.by_file ++ [fileEntry] }
            else res
          lcovLoop changed_normalized rest res' none file_total file_covered
      | none => lcovLoop changed_normalized rest res current_file file_total file_covered
    else lcovLoop changed_normalized rest res current_file file_total file_covered

/-- `parse_lcov` over the stripped lines of the report file; `none` models
a missing or unreadable file. -/
def parse_lcov (fileLines : Option (List String)) (changed_files : List String) :
    CoverageResult :=
  match fileLines with
  | none => defaultCoverageResult
  | some ls =>
    let changed_normalized := changed_files.map normpathStr
    let (res, ok) := lcovLoop changed_normalized ls defaultCoverageResult none 0 0
    if ok ∧ 0 < res.total_lines then
      { res with
          percentage :=
            round1 (((res.covered_lines : ℚ) / (res.total_lines : ℚ)) * 100) }
    else res

/-- Python `v > 0` on a statement-hit value (`True`/`False` compare as
`1`/`0`; other non-numeric values would raise, which no claim exercises). -/
def hitsPos : Json → Bool
  | Json.num q => 0 < q
  | Json.bool b => b
  | _ => false

/-- Python `hits == 0` on a function-hit value (equality never raises;
non-numeric values simply compare unequal). -/
def hitsZero : Json → Bool
  | Json.num q => q = 0
  | Json.bool b => !b
  | _ => false

/-- `parse_istanbul_json`.  `none` models a missing file or a `json.load`
failure; a non-object document raises at `data.items()` inside the `try`
and also yields the default record.  Raise paths on ill-typed nested
values (caught by the same `try`, yielding partially accumulated records)
are not modelled; no claim exercises them. -/
def parse_istanbul_json (doc : Option Json) (changed_files : List String) :
    CoverageResult :=
  match doc with
  | some (Json.obj entries) =>
    let changed_normalized := changed_files.map normpathStr
    let step := fun (res : CoverageResult) (entry : String × Json) =>
      let file_path := entry.1
      let file_norm := normpathStr file_path
      let is_changed := changed_normalized.any (fun cf =>
        endsWithL file_norm.data cf.data || endsWithL cf.data file_norm.data ||
          containsL file_path.data cf.data || containsL cf.data file_path.data)
      if !is_changed then res
      else
        let fkvs := match entry.2 with | Json.obj kvs => kvs | _ => []
        let statements := match (lookupKey "s" fkvs).getD (Json.obj []) with
          | Json.obj skvs => skvs
          | _ => []
        let file_total := statements.length
        let file_covered := (statements.filter (fun kv => hitsPos kv.2)).length
        if 0 < file_total then
          let functions := match (lookupKey "f" fkvs).getD (Json.obj []) with
            | Json.obj fnkvs => fnkvs
            | _ => []
          let fnMap := match (lookupKey "fnMap" fkvs).getD (Json.obj []) with
            | Json.obj mkvs => mkvs
            | _ => []
          let uncovered := functions.filterMap (fun kv =>
            if hitsZero kv.2 then
              match lookupKey kv.1 fnMap with
              | some fnInfo =>
                let fnName := match fnInfo with
                  | Json.obj ikvs =>
                    match (lookupKey "name" ikvs).getD (Json.str "anonymous") with
                    | Json.str s => s
                    | _ => "anonymous"
                  | _ => "anonymous"
                let fnLine := match fnInfo with
                  | Json.obj ikvs =>
                    match (lookupKey "loc" ikvs).getD (Json.obj []) with
                    | Json.obj lkvs =>
                      match (lookupKey "start" lkvs).getD (Json.obj []) with
                      | Json.obj stkvs =>
                        match (lookupKey "line" stkvs).getD (Json.str "?") with
                        | Json.num q => toString ⌊q⌋
                        | Json.str s => s
                        | _ => "?"
                      | _ => "?"
                    | _ => "?"
                  | _ => "?"
                some (file_path ++ ":" ++ fnLine ++ " (" ++ fnName ++ ")")
              | none => none
            else none)
          let fileEntry : CoverageFileEntry :=
            { file := file_path, total_lines := file_total
              covered_lines := file_covered
              coverage := round1 (((file_covered : ℚ) / (file_total : ℚ)) * 100) }
          { res with
              total_lines := res.total_lines + file_total
              covered_lines := res.covered_lines + file_covered
              by_file := res.by_file ++ [fileEntry]
              uncovered_functions := res.uncovered_functions ++ uncovered }
        else res
    let res := entries.foldl step defaultCoverageResult
    if 0 < res.total_lines then
      { res with
          percentage :=
            round1 (((res.covered_lines : ℚ) / (res.total_lines : ℚ)) * 100) }
    else res
  | _ => defaultCoverageResult

/-! ## Linter / duplication / test-result parsers (`calculate_score.py`)

Each takes the value produced by `load_json_safe` (`none` when the file is
missing, unreadable, or not valid JSON — all of which make `load_json_safe`
return `None`).  Where the Python body can raise on well-formed JSON of an
unexpected shape, the parser is `Except`-valued and the error carries the
Python exception class. -/

def ruffComplexityRules : List String := ["C901", "PLR0915", "PLR0912", "PLR0911"]

def eslintComplexityRules : List String :=
  ["complexity", "max-depth", "max-nested-callbacks", "max-lines-per-function"]

def swiftlintComplexityRules : List String :=
  ["cyclomatic_complexity", "function_body_length", "type_body_length", "file_length"]

def detektComplexityRules : List String :=
  ["ComplexMethod", "LongMethod", "LargeClass", "NestedBlockDepth",
   "CyclomaticComplexMethod"]

/-- Python `v in rules` where `rules` is a set of strings: lists and dicts
are unhashable and raise `TypeError`; any other value is hashable and the
membership test is plain equality. -/
def setMemberStr (rules : List String) (v : Json) : Except String Bool :=
  match v with
  | Json.arr _ => Except.error "TypeError: unhashable type"
  | Json.obj _ => Except.error "TypeError: unhashable type"
  | Json.str s => Except.ok (rules.contains s)
  | _ => Except.ok false

def addComplexity (acc : LinterData) (entry : Issue) : LinterData :=
  { acc with complexity_issues := acc.complexity_issues ++ [entry]
             total_issues := acc.total_issues + 1 }

def addSmell (acc : LinterData) (entry : Issue) : LinterData :=
  { acc with smell_issues := acc.smell_issues ++ [entry]
             total_issues := acc.total_issues + 1 }

/-- Loop body of `parse_ruff_results`.  A finding whose `location` value is
not an object makes `issue.get("location", {}).get("row", 0)` raise
`AttributeError`; a list- or dict-valued `code` makes
`code in complexity_rules` raise `TypeError`. -/
def ruffLoop : List Json → LinterData → Except String LinterData
  | [], acc => Except.ok acc
  | item :: rest, acc =>
    match item with
    | Json.obj kvs =>
      let code := (lookupKey "code" kvs).getD (Json.str "")
      let loc := (lookupKey "location" kvs).getD (Json.obj [])
      match loc with
      | Json.obj lkvs =>
        let entry : Issue :=
          { file := (lookupKey "filename" kvs).getD (Json.str "")
            line := (lookupKey "row" lkvs).getD (Json.num 0)
            code := code
            message := (lookupKey "message" kvs).getD (Json.str "") }
        match setMemberStr ruffComplexityRules code with
        | Except.error e => Except.error e
        | Except.ok true => ruffLoop rest (addComplexity acc entry)
        | Except.ok false => ruffLoop rest (addSmell acc entry)
      | _ => Except.error "AttributeError: object has no attribute get"
    | _ => ruffLoop rest acc

/-- `parse_ruff_results`; `not data or not isinstance(data, list)` returns
the default record (this covers `None`, every non-list value, and the
empty list, which is falsy). -/
def parse_ruff_results (data : Option Json) : Except String LinterData :=
  match data with
  | some (Json.arr items) =>
    if items.isEmpty then Except.ok defaultLinterData
    else ruffLoop items defaultLinterData
  | _ => Except.ok defaultLinterData

/-- `any(r in rule_id for r in complexity_rules)` in `parse_eslint_results`:
a substring test when `rule_id` is a string, element membership for a list,
key membership for a dict; a (truthy) number or `True` is not iterable and
raises `TypeError`.  (Falsy values were already replaced by `""`.) -/
def eslintClassify (rule_id : Json) : Except String Bool :=
  match rule_id with
  | Json.str s => Except.ok (eslintComplexityRules.any (fun r => containsL r.data s.data))
  | Json.arr xs => Except.ok (eslintComplexityRules.any (fun r => xs.contains (Json.str r)))
  | Json.obj kvs =>
    Except.ok (eslintComplexityRules.any (fun r => kvs.any (fun kv => kv.1 = r)))
  | _ => Except.error "TypeError: argument of type is not iterable"

def eslintMsgLoop (filepath : Json) : List Json → LinterData → Except String LinterData
  | [], acc => Except.ok acc
  | msg :: rest, acc =>
    match msg with
    | Json.obj mkvs =>
      let rawRule := (lookupKey "ruleId" mkvs).getD (Json.str "")
      let rule_id := if rawRule.falsy then Json.str "" else rawRule
      let entry : Issue :=
        { file := filepath
          line := (lookupKey "line" mkvs).getD (Json.num 0)
          code := rule_id
          message := (lookupKey "message" mkvs).getD (Json.str "") }
      match eslintClassify rule_id with
      | Except.error e => Except.error e
      | Except.ok true => eslintMsgLoop filepath rest (addComplexity acc entry)
      | Except.ok false => eslintMsgLoop filepath rest (addSmell acc entry)
    | _ => eslintMsgLoop filepath rest acc

/-- Outer loop of `parse_eslint_results`.  `for msg in messages` iterates
the characters of a string and the keys of a dict — none of which are
dicts, so those cases contribute nothing — and raises `TypeError` on a
number, boolean or `None`. -/
def eslintFileLoop : List Json → LinterData → Except String LinterData
  | [], acc => Except.ok acc
  | fileResult :: rest, acc =>
    match fileResult with
    | Json.obj fkvs =>
      let filepath := (lookupKey "filePath" fkvs).getD (Json.str "")
      let messages := (lookupKey "messages" fkvs).getD (Json.arr [])
      match messages with
      | Json.arr msgs =>
        match eslintMsgLoop filepath msgs acc with
        | Except.error e => Except.error e
        | Except.ok acc' => eslintFileLoop rest acc'
      | Json.str _ => eslintFileLoop rest acc
      | Json.obj _ => eslintFileLoop rest acc
      | _ => Except.error "TypeError: object is not iterable"
    | _ => eslintFileLoop rest acc

def parse_eslint_results (data : Option Json) : Except String LinterData :=
  match data with
  | some (Json.arr items) =>
    if items.isEmpty then Except.ok defaultLinterData
    else eslintFileLoop items defaultLinterData
  | _ => Except.ok defaultLinterData

def swiftlintLoop : List Json → LinterData → Except String LinterData
  | [], acc => Except.ok acc
  | item :: rest, acc =>
    match item with
    | Json.obj kvs =>
      let rule_id := (lookupKey "rule_id" kvs).getD (Json.str "")
      let entry : Issue :=
        { file := (lookupKey "file" kvs).getD (Json.str "")
          line := (lookupKey "line" kvs).getD (Json.num 0)
          code := rule_id
          message := (lookupKey "reason" kvs).getD (Json.str "") }
      match setMemberStr swiftlintComplexityRules rule_id with
      | Except.error e => Except.error e
      | Except.ok true => swiftlintLoop rest (addComplexity acc entry)
      | Except.ok false => swiftlintLoop rest (addSmell acc entry)
    | _ => swiftlintLoop rest acc

def parse_swiftlint_results (data : Option Json) : Except String LinterData :=
  match data with
  | some (Json.arr items) =>
    if items.isEmpty then Except.ok defaultLinterData
    else swiftlintLoop items defaultLinterData
  | _ => Except.ok defaultLinterData

/-- Inner loop of `parse_detekt_results` over one category's findings.
A non-object `location` raises at `location.get("path", "")`. -/
def detektIssueLoop : List Json → LinterData → Except String LinterData
  | [], acc => Except.ok acc
  | issue :: rest, acc =>
    match issue with
    | Json.obj ikvs =>
      let rule := (lookupKey "rule" ikvs).getD (Json.str "")
      let location := (lookupKey "location" ikvs).getD (Json.obj [])
      match location with
      | Json.obj lkvs =>
        let entry : Issue :=
          { file := (lookupKey "path" lkvs).getD (Json.str "")
            line := (lookupKey "line" lkvs).getD (Json.num 0)
            code := rule
            message := (lookupKey "message" ikvs).getD (Json.str "") }
        match setMemberStr detektComplexityRules rule with
        | Except.error e => Except.error e
        | Except.ok true => detektIssueLoop rest (addComplexity acc entry)
        | Except.ok false => detektIssueLoop rest (addSmell acc entry)
      | _ => Except.error "AttributeError: object has no attribute get"
    | _ => detektIssueLoop rest acc

/-- `for category, issues in findings.items()`: categories whose value is
not a list are skipped. -/
def detektCatLoop : List (String × Json) → LinterData → Except String LinterData
  | [], acc => Except.ok acc
  | (_, issues) :: rest, acc =>
    match issues with
    | Json.arr is =>
      match detektIssueLoop is acc with
      | Except.error e => Except.error e
      | Except.ok acc' => detektCatLoop rest acc'
    | _ => detektCatLoop rest acc

/-- `parse_detekt_results`; a non-dict `findings` value raises at
`findings.items()`. -/
def parse_detekt_results (data : Option Json) : Except String LinterData :=
  match data with
  | some (Json.obj kvs) =>
    if kvs.isEmpty then Except.ok defaultLinterData
    else
      let findings := (lookupKey "findings" kvs).getD (Json.obj [])
      match findings with
      | Json.obj fkvs => detektCatLoop fkvs defaultLinterData
      | _ => Except.error "AttributeError: object has no attribute items"
  | _ => Except.ok defaultLinterData

/-- Loop over `data.get("duplicates", [])` in `parse_jscpd_results`.
A non-object `firstFile`/`secondFile` raises at `.get("name", "")`. -/
def jscpdDupLoop : List Json → List Duplication → Except String (List Duplication)
  | [], acc => Except.ok acc
  | dup :: rest, acc =>
    match dup with
    | Json.obj dkvs =>
      let firstFile := (lookupKey "firstFile" dkvs).getD (Json.obj [])
      let secondFile := (lookupKey "secondFile" dkvs).getD (Json.obj [])
      match firstFile, secondFile with
      | Json.obj f1, Json.obj f2 =>
        let d : Duplication :=
          { first_file := (lookupKey "name" f1).getD (Json.str "")
            second_file := (lookupKey "name" f2).getD (Json.str "")
            lines := (lookupKey "lines" dkvs).getD (Json.num 0)
            tokens := (lookupKey "tokens" dkvs).getD (Json.num 0) }
        jscpdDupLoop rest (acc ++ [d])
      | _, _ => Except.error "AttributeError: object has no attribute get"
    | _ => jscpdDupLoop rest acc

/-- `parse_jscpd_results`; a non-dict `statistics` or `statistics.total`
raises at the chained `.get`, and iterating a non-iterable `duplicates`
value raises `TypeError`. -/
def parse_jscpd_results (data : Option Json) : Except String JscpdData :=
  match data with
  | some (Json.obj kvs) =>
    if kvs.isEmpty then Except.ok defaultJscpdData
    else
      let stats := (lookupKey "statistics" kvs).getD (Json.obj [])
      match stats with
      | Json.obj skvs =>
        let total := (lookupKey "total" skvs).getD (Json.obj [])
        match total with
        | Json.obj tkvs =>
          let percentage := ((lookupKey "percentage" tkvs).getD (Json.num 0)).toQ
          let total_lines := ((lookupKey "lines" tkvs).getD (Json.num 0)).toCount
          let duplicated_lines :=
            ((lookupKey "duplicatedLines" tkvs).getD (Json.num 0)).toCount
          let dups := (lookupKey "duplicates" kvs).getD (Json.arr [])
          match dups with
          | Json.arr ds =>
            match jscpdDupLoop ds [] with
            | Except.error e => Except.error e
            | Except.ok duplications =>
              Except.ok { percentage := percentage, duplications := duplications
                          total_lines := total_lines
                          duplicated_lines := duplicated_lines }
          | Json.str _ =>
            Except.ok { percentage := percentage, duplications := []
                        total_lines := total_lines
                        duplicated_lines := duplicated_lines }
          | Json.obj _ =>
            Except.ok { percentage := percentage, duplications := []
                        total_lines := total_lines
                        duplicated_lines := duplicated_lines }
          | _ => Except.error "TypeError: object is not iterable"
        | _ => Except.error "AttributeError: object has no attribute get"
      | _ => Except.error "AttributeError: object has no attribute get"
  | _ => Except.ok defaultJscpdData

/-- `parse_test_results`: every field is read with `dict.get` and stored;
no raise path exists.  The boolean fields are read the way the scorer
later uses them (Python truthiness); counts and percentages as numbers
(see `Json.toQ`). -/
def parse_test_results (data : Option Json) : TestData :=
  match data with
  | some (Json.obj kvs) =>
    if kvs.isEmpty then defaultTestData
    else
      { tests_run := ((lookupKey "tests_run" kvs).getD (Json.num 0)).toCount
        tests_passed := ((lookupKey "tests_passed" kvs).getD (Json.num 0)).toCount
        tests_failed := ((lookupKey "tests_failed" kvs).getD (Json.num 0)).toCount
        tests_skipped := ((lookupKey "tests_skipped" kvs).getD (Json.num 0)).toCount
        failures_details := ((lookupKey "failures" kvs).getD (Json.arr [])).toList
        coverage_percentage :=
          ((lookupKey "coverage_percentage" kvs).getD (Json.num 0)).toQ
        coverage_by_file := ((lookupKey "coverage_by_file" kvs).getD (Json.arr [])).toList
        uncovered_functions :=
          ((lookupKey "uncovered_functions" kvs).getD (Json.arr [])).toList
        unit_tests_found :=
          !((lookupKey "unit_tests_found" kvs).getD (Json.bool false)).falsy
        unit_tests_count := ((lookupKey "unit_tests_count" kvs).getD (Json.num 0)).toCount
        unit_test_files := ((lookupKey "unit_test_files" kvs).getD (Json.arr [])).toList
        e2e_tests_found :=
          !((lookupKey "e2e_tests_found" kvs).getD (Json.bool false)).falsy
        e2e_tests_count := ((lookupKey "e2e_tests_count" kvs).getD (Json.num 0)).toCount
        coverage_total_lines :=
          ((lookupKey "coverage_total_lines" kvs).getD (Json.num 0)).toCount
        coverage_covered_lines :=
          ((lookupKey "coverage_covered_lines" kvs).getD (Json.num 0)).toCount }
  | _ => defaultTestData

/-- A one-class Cobertura document with three lines, two of them hit, used
to compare the three path conventions of claim C8. -/
def exampleCobertura (fname : String) : List CoberturaPackage :=
  [{ classes := [{ filename := fname, lines := [⟨1⟩, ⟨0⟩, ⟨1⟩], methods := [] }] }]

/-! ## Helper lemmas -/

lemma calculate_score_final (config : Config) (files : List String)
    (r e s d : LinterData) (j : JscpdData) (t : TestData) (thr : ℤ) :
    (calculate_score config files r e s d j t thr).final_score =
      final_score config r e s d j t := rfl

lemma calculate_score_passed (config : Config) (files : List String)
    (r e s d : LinterData) (j : JscpdData) (t : TestData) (thr : ℤ) :
    (calculate_score config files r e s d j t thr).passed =
      decide (thr ≤ final_score config r e s d j t) := rfl

lemma calculate_score_unit_score (config : Config) (files : List String)
    (r e s d : LinterData) (j : JscpdData) (t : TestData) (thr : ℤ) :
    (calculate_score config files r e s d j t
      thr).breakdown.test_presence.unit_tests.score = unit_tests_score t := rfl

lemma ccs_fst (l : List Issue) :
    (calculate_complexity_score l).1 = max 0 (15 - (l.length : ℤ) * 4) := by
  unfold calculate_complexity_score
  simp only
  omega

lemma ccs_snd (l : List Issue) :
    (calculate_complexity_score l).2 = min 15 ((l.length : ℤ) * 4) := by
  unfold calculate_complexity_score
  simp only

lemma css_fst (l : List Issue) :
    (calculate_smells_score l).1 = max 0 (15 - (l.length : ℤ) * 3) := by
  unfold calculate_smells_score
  simp only
  omega

lemma css_snd (l : List Issue) :
    (calculate_smells_score l).2 = min 15 ((l.length : ℤ) * 3) := by
  unfold calculate_smells_score
  simp only

lemma coverage_score_mono {p q : ℚ} (h : p ≤ q) :
    calculate_coverage_score p ≤ calculate_coverage_score q := by
  unfold calculate_coverage_score
  split_ifs <;> first | omega | linarith

lemma round1_ten : round1 10 = 10 := by
  have h := round1_intCast 10
  push_cast at h
  exact h

lemma round1_zero : round1 0 = 0 := by
  have h := round1_intCast 0
  push_cast at h
  exact h

lemma round1_forty : round1 40 = 40 := by
  have h := round1_intCast 40
  push_cast at h
  exact h

lemma dup_score_zero : calculate_duplication_score 0 = (10, 0) := by
  unfold calculate_duplication_score
  have h1 : (0 : ℚ) * 1 = 0 := by ring
  rw [h1, min_eq_right (by norm_num : (0 : ℚ) ≤ 10)]
  norm_num [round1_ten, round1_zero]

lemma complexity_score_nil : calculate_complexity_score [] = (15, 0) := by
  unfold calculate_complexity_score
  norm_num

lemma smells_score_nil : calculate_smells_score [] = (15, 0) := by
  unfold calculate_smells_score
  norm_num

lemma coverage_score_zero : calculate_coverage_score 0 = 0 := by
  unfold calculate_coverage_score
  norm_num

lemma results_score_zero : calculate_test_results_score 0 0 = 0 := by
  unfold calculate_test_results_score
  norm_num

lemma cq_total_defaults :
    code_quality_total defaultLinterData defaultLinterData defaultLinterData
      defaultLinterData defaultJscpdData = 40 := by
  unfold code_quality_total all_complexity_issues all_smell_issues
  simp [defaultLinterData, defaultJscpdData, complexity_score_nil, smells_score_nil,
    dup_score_zero]
  norm_num

lemma th_total_defaults : test_health_total defaultTestData = 0 := by
  unfold test_health_total
  simp [defaultTestData, coverage_score_zero, results_score_zero]

lemma tp_total_defaults :
    test_presence_total ⟨false⟩ defaultTestData = 0 := by
  unfold test_presence_total unit_tests_score e2e_score
  simp [defaultTestData]

lemma total_max_val (config : Config) :
    total_max config = if config.e2e_required then 100 else 90 := by
  obtain ⟨req⟩ := config
  cases req <;> rfl

lemma total_max_pos (config : Config) : 0 < total_max config := by
  rw [total_max_val]
  split_ifs <;> norm_num

lemma final_score_as_roundEven (config : Config) (r e s d : LinterData)
    (j : JscpdData) (t : TestData) :
    final_score config r e s d j t =
      roundEven (total_earned config r e s d j t / (total_max config : ℚ) * 100) := by
  unfold final_score
  rw [if_pos (total_max_pos config)]

lemma earned_defaults :
    total_earned ⟨false⟩ defaultLinterData defaultLinterData defaultLinterData
      defaultLinterData defaultJscpdData defaultTestData = 40 := by
  unfold total_earned
  rw [cq_total_defaults, th_total_defaults, tp_total_defaults]
  norm_num

lemma roundEven_400_9 : roundEven (400 / 9) = 44 := by
  apply roundEven_eq_of_lt
  · norm_num
  · norm_num

lemma final_score_defaults :
    final_score ⟨false⟩ defaultLinterData defaultLinterData defaultLinterData
      defaultLinterData defaultJscpdData defaultTestData = 44 := by
  rw [final_score_as_roundEven, earned_defaults, total_max_val]
  norm_num
  exact roundEven_400_9

/-- Monotone division step used for the final-score monotonicity claims. -/
lemma roundEven_div_mono (M : ℤ) (hM : 0 < M) {E1 E2 : ℚ} (h : E1 ≤ E2) :
    roundEven (E1 / (M : ℚ) * 100) ≤ roundEven (E2 / (M : ℚ) * 100) := by
  apply roundEven_mono
  have hM' : (0 : ℚ) < (M : ℚ) := by exact_mod_cast hM
  gcongr

/-- The double nearest `0.15` is `5404319552844595 / 2^55`, which is just
below `0.15`. -/
lemma double015_eq : double015 = 5404319552844595 / 2 ^ 55 := by
  unfold double015 roundToUlp
  have h1 : roundEven ((15 / 100 : ℚ) / (1 / 2 ^ 55)) = 5404319552844595 := by
    apply roundEven_eq_of_lt
    · norm_num
    · norm_num
  rw [h1]
  norm_num

/-- The float `10.0 - 0.15` is `5545057041199923 / 2^49`, just below
`9.85`. -/
lemma doubleScoreRaw_eq : doubleScoreRaw = 5545057041199923 / 2 ^ 49 := by
  unfold doubleScoreRaw roundToUlp
  rw [double015_eq]
  have h1 : roundEven (((10 : ℚ) - 5404319552844595 / 2 ^ 55) / (1 / 2 ^ 49)) =
      5545057041199923 := by
    apply roundEven_eq_of_lt
    · norm_num
    · norm_num
  rw [h1]
  norm_num

/-- The exact value of the score double is below `9.85`, so its correct
one-decimal rounding is `9.8`. -/
lemma round1_doubleScoreRaw_eq : round1 doubleScoreRaw = 49 / 5 := by
  rw [doubleScoreRaw_eq]
  unfold round1
  have h1 : roundEven ((5545057041199923 / 2 ^ 49 : ℚ) * 10) = 98 := by
    apply roundEven_eq_of_lt
    · norm_num
    · norm_num
  rw [h1]
  norm_num

/-- The exact value of the percentage double is below `0.15`, so its
correct one-decimal rounding is `0.1`. -/
lemma round1_double015_eq : round1 double015 = 1 / 10 := by
  rw [double015_eq]
  unfold round1
  have h1 : roundEven ((5404319552844595 / 2 ^ 55 : ℚ) * 10) = 1 := by
    apply roundEven_eq_of_lt
    · norm_num
    · norm_num
  rw [h1]
  norm_num

/-- `round(10.0 - 0.15, 1)` returns the double nearest `9.8`. -/
lemma pyRound1Large_score_eq :
    pyRound1Large doubleScoreRaw = 5516909543528858 / 2 ^ 49 := by
  unfold pyRound1Large roundToUlp
  rw [round1_doubleScoreRaw_eq]
  have h1 : roundEven ((49 / 5 : ℚ) / (1 / 2 ^ 49)) = 5516909543528857 + 1 := by
    apply roundEven_eq_of_gt
    · norm_num
    · norm_num
  rw [h1]
  norm_num

/-- `round(0.15, 1)` returns the double nearest `0.1`. -/
lemma pyRound1Small_penalty_eq :
    pyRound1Small double015 = 7205759403792794 / 2 ^ 56 := by
  unfold pyRound1Small roundToUlp
  rw [round1_double015_eq]
  have h1 : roundEven ((1 / 10 : ℚ) / (1 / 2 ^ 56)) = 7205759403792793 + 1 := by
    apply roundEven_eq_of_gt
    · norm_num
    · norm_num
  rw [h1]
  norm_num

/-- The float sum of the returned score and penalty doubles is the double
nearest `9.9` — not `10`. -/
lemma doubleSum015_eq : doubleSum015 = 5573204538870989 / 2 ^ 49 := by
  unfold doubleSum015
  rw [pyRound1Large_score_eq, pyRound1Small_penalty_eq]
  unfold roundToUlp
  have h1 : roundEven (((5516909543528858 / 2 ^ 49 : ℚ) + 7205759403792794 / 2 ^ 56) /
      (1 / 2 ^ 49)) = 5573204538870989 := by
    apply roundEven_eq_of_lt
    · norm_num
    · norm_num
  rw [h1]
  norm_num

/-- The exact-rational reading of the duplication formula at percentage
`3/20`: the ties-to-even rounding of the true values gives `9.8` and
`0.2`, which do sum to the claimed `10` (contrast with the float run,
where `round(0.15, 1) = 0.1`). -/
lemma dup_score_exact_015 :
    (calculate_duplication_score (15 / 100)).1 = 49 / 5 ∧
    (calculate_duplication_score (15 / 100)).2 = 1 / 5 := by
  unfold calculate_duplication_score
  dsimp only
  have hm : min (10 : ℚ) (15 / 100 * 1) = 3 / 20 := by norm_num
  have h1 : round1 ((10 : ℚ) - 3 / 20) = 49 / 5 := by
    unfold round1
    have h : roundEven (((10 : ℚ) - 3 / 20) * 10) = 98 := by
      apply roundEven_eq_of_half_even
      · norm_num
      · norm_num
    rw [h]
    norm_num
  have h2 : round1 ((3 : ℚ) / 20) = 1 / 5 := by
    unfold round1
    have h : roundEven ((3 / 20 : ℚ) * 10) = 1 + 1 := by
      apply roundEven_eq_of_half_odd
      · norm_num
      · norm_num
    rw [h]
    norm_num
  rw [hm, h1, h2]
  norm_num

lemma calculate_score_cq_total (config : Config) (files : List String)
    (r e s d : LinterData) (j : JscpdData) (t : TestData) (thr : ℤ) :
    (calculate_score config files r e s d j t thr).breakdown.code_quality.total =
      round1 (code_quality_total r e s d j) := rfl

lemma calculate_score_cq_max (config : Config) (files : List String)
    (r e s d : LinterData) (j : JscpdData) (t : TestData) (thr : ℤ) :
    (calculate_score config files r e s d j t thr).breakdown.code_quality.max = 40 := rfl

lemma calculate_score_th_total (config : Config) (files : List String)
    (r e s d : LinterData) (j : JscpdData) (t : TestData) (thr : ℤ) :
    (calculate_score config files r e s d j t thr).breakdown.test_health.total =
      test_health_total t := rfl

lemma calculate_score_th_max (config : Config) (files : List String)
    (r e s d : LinterData) (j : JscpdData) (t : TestData) (thr : ℤ) :
    (calculate_score config files r e s d j t thr).breakdown.test_health.max = 30 := rfl

lemma calculate_score_tp_total (config : Config) (files : List String)
    (r e s d : LinterData) (j : JscpdData) (t : TestData) (thr : ℤ) :
    (calculate_score config files r e s d j t thr).breakdown.test_presence.total =
      test_presence_total config t := rfl

lemma calculate_score_tp_max (config : Config) (files : List String)
    (r e s d : LinterData) (j : JscpdData) (t : TestData) (thr : ℤ) :
    (calculate_score config files r e s d j t thr).breakdown.test_presence.max =
      test_presence_max config := rfl

/-! ## Claims -/

/-- Claim C1: with default-valued parsed records and e2e not required, the
scorer reports code_quality 40/40, test_health 0/30, test_presence 0/20,
and final score `round(100 * 40 / 90) = 44` for every threshold, failing
at the default threshold 70; in general the final score is
`round(100 * total_earned / total_max)`, the run passes iff the final
score reaches the threshold, and the maximum is 90 without a required e2e
suite and 100 with one. -/
theorem scenarioA_and_final_score_formula :
    (∀ threshold : ℤ,
      (calculate_score ⟨false⟩ [] defaultLinterData defaultLinterData
        defaultLinterData defaultLinterData defaultJscpdData defaultTestData
        threshold).final_score = 44) ∧
    (calculate_score ⟨false⟩ [] defaultLinterData defaultLinterData defaultLinterData
      defaultLinterData defaultJscpdData defaultTestData
      70).breakdown.code_quality.total = 40 ∧
    (calculate_score ⟨false⟩ [] defaultLinterData defaultLinterData defaultLinterData
      defaultLinterData defaultJscpdData defaultTestData
      70).breakdown.code_quality.max = 40 ∧
    (calculate_score ⟨false⟩ [] defaultLinterData defaultLinterData defaultLinterData
      defaultLinterData defaultJscpdData defaultTestData
      70).breakdown.test_health.total = 0 ∧
    (calculate_score ⟨false⟩ [] defaultLinterData defaultLinterData defaultLinterData
      defaultLinterData defaultJscpdData defaultTestData
      70).breakdown.test_health.max = 30 ∧
    (calculate_score ⟨false⟩ [] defaultLinterData defaultLinterData defaultLinterData
      defaultLinterData defaultJscpdData defaultTestData
      70).breakdown.test_presence.total = 0 ∧
    (calculate_score ⟨false⟩ [] defaultLinterData defaultLinterData defaultLinterData
      defaultLinterData defaultJscpdData defaultTestData
      70).breakdown.test_presence.max = 20 ∧
    roundEven (100 * 40 / 90) = 44 ∧
    (calculate_score ⟨false⟩ [] defaultLinterData defaultLinterData defaultLinterData
      defaultLinterData defaultJscpdData defaultTestData 70).passed = false ∧
    (∀ (config : Config) (files : List String) (r e s d : LinterData)
        (j : JscpdData) (t : TestData) (thr : ℤ),
      (calculate_score config files r e s d j t thr).final_score =
        roundEven (100 * total_earned config r e s d j t / (total_max config : ℚ)) ∧
      ((calculate_score config files r e s d j t thr).passed = true ↔
        thr ≤ (calculate_score config files r e s d j t thr).final_score) ∧
      total_max config = (if config.e2e_required then 100 else 90)) := by
  refine ⟨?_, ?_, ?_, ?_, ?_, ?_, ?_, ?_, ?_, ?_⟩
  · intro threshold
    rw [calculate_score_final, final_score_defaults]
  · rw [calculate_score_cq_total, cq_total_defaults, round1_forty]
  · rw [calculate_score_cq_max]
  · rw [calculate_score_th_total, th_total_defaults]
  · rw [calculate_score_th_max]
  · rw [calculate_score_tp_total, tp_total_defaults]
  · rw [calculate_score_tp_max]
    rfl
  · have h : (100 : ℚ) * 40 / 90 = 400 / 9 := by norm_num
    rw [h]
    exact roundEven_400_9
  · rw [calculate_score_passed, final_score_defaults]
    decide
  · intro config files r e s d j t thr
    refine ⟨?_, ?_, total_max_val config⟩
    · rw [calculate_score_final, final_score_as_roundEven]
      congr 1
      ring
    · rw [calculate_score_passed, calculate_score_final]
      simp

/-- Claim C2: for every percentage `p` the coverage score is a pure step
function with inclusive lower boundaries on the upper band:
`p ≥ 80 → 20`, `60 ≤ p < 80 → 15`, `40 ≤ p < 60 → 10`, `20 ≤ p < 40 → 5`,
`p < 20 → 0`, with no interpolation between bands. -/
theorem coverage_score_step (p : ℚ) :
    (80 ≤ p → calculate_coverage_score p = 20) ∧
    (60 ≤ p → p < 80 → calculate_coverage_score p = 15) ∧
    (40 ≤ p → p < 60 → calculate_coverage_score p = 10) ∧
    (20 ≤ p → p < 40 → calculate_coverage_score p = 5) ∧
    (p < 20 → calculate_coverage_score p = 0) := by
  unfold calculate_coverage_score
  refine ⟨?_, ?_, ?_, ?_, ?_⟩ <;> intros <;> split_ifs <;> first | rfl | linarith

/-- Witness for C2, evaluating the step function at the boundary examples
of the claim: `79.9 → 15`, `80 → 20`, `59.9 → 10`, `60 → 15`. -/
theorem coverage_score_step_witness :
    ((60 : ℚ) ≤ 79.9 ∧ (79.9 : ℚ) < 80 ∧ calculate_coverage_score 79.9 = 15) ∧
    ((80 : ℚ) ≤ 80 ∧ calculate_coverage_score 80 = 20) ∧
    ((40 : ℚ) ≤ 59.9 ∧ (59.9 : ℚ) < 60 ∧ calculate_coverage_score 59.9 = 10) ∧
    ((60 : ℚ) ≤ 60 ∧ (60 : ℚ) < 80 ∧ calculate_coverage_score 60 = 15) :=
  ⟨⟨by norm_num, by norm_num,
      (coverage_score_step 79.9).2.1 (by norm_num) (by norm_num)⟩,
   ⟨le_refl 80, (coverage_score_step 80).1 (by norm_num)⟩,
   ⟨by norm_num, by norm_num,
      (coverage_score_step 59.9).2.2.1 (by norm_num) (by norm_num)⟩,
   ⟨le_refl 60, by norm_num,
      (coverage_score_step 60).2.1 (by norm_num) (by norm_num)⟩⟩

/-- Claim C3: for all non-negative integers `passed` and `failed`, the
test-results score is a step function of the pass rate over
`passed + failed`: exactly 100 percent gives 10, at least 95 gives 8, at
least 80 gives 5, below 80 gives 0, and zero tests run gives 0. -/
theorem test_results_score_step (passed failed : ℕ) :
    (passed + failed = 0 → calculate_test_results_score passed failed = 0) ∧
    (0 < passed + failed →
      (((passed : ℚ) / ((passed + failed : ℕ) : ℚ)) * 100 = 100 →
        calculate_test_results_score passed failed = 10) ∧
      (95 ≤ ((passed : ℚ) / ((passed + failed : ℕ) : ℚ)) * 100 →
        ((passed : ℚ) / ((passed + failed : ℕ) : ℚ)) * 100 < 100 →
        calculate_test_results_score passed failed = 8) ∧
      (80 ≤ ((passed : ℚ) / ((passed + failed : ℕ) : ℚ)) * 100 →
        ((passed : ℚ) / ((passed + failed : ℕ) : ℚ)) * 100 < 95 →
        calculate_test_results_score passed failed = 5) ∧
      (((passed : ℚ) / ((passed + failed : ℕ) : ℚ)) * 100 < 80 →
        calculate_test_results_score passed failed = 0)) := by
  unfold calculate_test_results_score
  constructor
  · intro h
    simp [h]
  · intro h
    refine ⟨?_, ?_, ?_, ?_⟩ <;> intros <;> dsimp only <;> split_ifs <;>
      first | rfl | linarith

/-- Witness for C3 at the claim's examples: 96 percent gives 8
(24 passed, 1 failed), 85 percent gives 5 (17 passed, 3 failed),
50 percent gives 0 (1 passed, 1 failed), zero tests give 0. -/
theorem test_results_score_step_witness :
    ((0 : ℕ) < 24 + 1 ∧ calculate_test_results_score 24 1 = 8) ∧
    ((0 : ℕ) < 17 + 3 ∧ calculate_test_results_score 17 3 = 5) ∧
    ((0 : ℕ) < 1 + 1 ∧ calculate_test_results_score 1 1 = 0) ∧
    ((0 : ℕ) + 0 = 0 ∧ calculate_test_results_score 0 0 = 0) :=
  ⟨⟨by norm_num,
      ((test_results_score_step 24 1).2 (by norm_num)).2.1 (by norm_num) (by norm_num)⟩,
   ⟨by norm_num,
      ((test_results_score_step 17 3).2 (by norm_num)).2.2.1 (by norm_num) (by norm_num)⟩,
   ⟨by norm_num,
      ((test_results_score_step 1 1).2 (by norm_num)).2.2.2 (by norm_num)⟩,
   ⟨by norm_num, (test_results_score_step 0 0).1 (by norm_num)⟩⟩

/-- Claim C4: for every issue count `n ≥ 0` the complexity score equals
`max 0 (15 - 4n)` with penalty `min 15 (4n)`, the smells score equals
`max 0 (15 - 3n)` with penalty `min 15 (3n)`; at `n = 0` each score is the
category maximum 15, and neither score is ever negative. -/
theorem complexity_smells_formulas (compl smell : List Issue) :
    (calculate_complexity_score compl).1 = max 0 (15 - 4 * (compl.length : ℤ)) ∧
    (calculate_complexity_score compl).2 = min 15 (4 * (compl.length : ℤ)) ∧
    (calculate_smells_score smell).1 = max 0 (15 - 3 * (smell.length : ℤ)) ∧
    (calculate_smells_score smell).2 = min 15 (3 * (smell.length : ℤ)) ∧
    (calculate_complexity_score ([] : List Issue)).1 = 15 ∧
    (calculate_smells_score ([] : List Issue)).1 = 15 ∧
    0 ≤ (calculate_complexity_score compl).1 ∧
    0 ≤ (calculate_smells_score smell).1 := by
  have h1 := ccs_fst compl
  have h2 := ccs_snd compl
  have h3 := css_fst smell
  have h4 := css_snd smell
  have h5 := ccs_fst ([] : List Issue)
  have h6 := css_fst ([] : List Issue)
  simp only [List.length_nil] at h5 h6
  refine ⟨?_, ?_, ?_, ?_, ?_, ?_, ?_, ?_⟩ <;> omega

/-- Claim C6, evaluated at the failing input: under the program's binary64
semantics, at duplication percentage `0.15` the scorer's percentage double
sits just below `0.15`, the penalty `min(10, 0.15 * 1.0)` equals it
exactly, the score double `10.0 - 0.15` sits just below `9.85`, so
`round(10.0 - 0.15, 1)` returns the double `9.8` and `round(0.15, 1)` the
double `0.1`; `max(0, ...)` keeps the score, and the float sum of the two
returned values is the double nearest `9.9` — not `10` — refuting
"score + penalty equals exactly 10" on the program, even though the
spec's formula satisfies it in exact arithmetic at the same input
(`calculate_duplication_score (15/100)` gives `9.8 + 0.2 = 10`). -/
theorem duplication_float_bug :
    double015 = 5404319552844595 / 2 ^ 55 ∧
    min (10 : ℚ) (double015 * 1) = double015 ∧
    doubleScoreRaw = 5545057041199923 / 2 ^ 49 ∧
    round1 doubleScoreRaw = 49 / 5 ∧
    round1 double015 = 1 / 10 ∧
    pyRound1Large doubleScoreRaw = 5516909543528858 / 2 ^ 49 ∧
    max 0 (pyRound1Large doubleScoreRaw) = pyRound1Large doubleScoreRaw ∧
    pyRound1Small double015 = 7205759403792794 / 2 ^ 56 ∧
    doubleSum015 = 5573204538870989 / 2 ^ 49 ∧
    doubleSum015 ≠ 10 ∧
    (calculate_duplication_score (15 / 100)).1 +
      (calculate_duplication_score (15 / 100)).2 = 10 := by
  refine ⟨double015_eq, ?_, doubleScoreRaw_eq, round1_doubleScoreRaw_eq,
    round1_double015_eq, pyRound1Large_score_eq, ?_, pyRound1Small_penalty_eq,
    doubleSum015_eq, ?_, ?_⟩
  · rw [double015_eq]
    norm_num
  · rw [pyRound1Large_score_eq]
    norm_num
  · rw [doubleSum015_eq]
    norm_num
  · rw [dup_score_exact_015.1, dup_score_exact_015.2]
    norm_num

/-- Claim C5: for every normalized test record the unit-test presence
score is exactly 20 when unit tests were found and the total count of
failed tests is zero, and exactly 0 in every other case, regardless of
how many unit tests exist. -/
theorem unit_test_presence_rule (config : Config) (files : List String)
    (r e s d : LinterData) (j : JscpdData) (t : TestData) (thr : ℤ) :
    (t.unit_tests_found = true → t.tests_failed = 0 →
      (calculate_score config files r e s d j t
        thr).breakdown.test_presence.unit_tests.score = 20) ∧
    (t.unit_tests_found = false →
      (calculate_score config files r e s d j t
        thr).breakdown.test_presence.unit_tests.score = 0) ∧
    (t.tests_failed ≠ 0 →
      (calculate_score config files r e s d j t
        thr).breakdown.test_presence.unit_tests.score = 0) := by
  simp only [calculate_score_unit_score, unit_tests_score]
  refine ⟨?_, ?_, ?_⟩
  · intro h1 h2
    rw [if_pos ⟨h1, h2⟩]
  · intro h1
    rw [if_neg]
    simp [h1]
  · intro h1
    rw [if_neg]
    tauto

/-- Witness for C5: found unit tests with zero failures score 20, and a
record with a failed test scores 0. -/
theorem unit_test_presence_rule_witness :
    ({ defaultTestData with unit_tests_found := true } : TestData).unit_tests_found = true ∧
    ({ defaultTestData with unit_tests_found := true } : TestData).tests_failed = 0 ∧
    (calculate_score ⟨false⟩ [] defaultLinterData defaultLinterData defaultLinterData
      defaultLinterData defaultJscpdData { defaultTestData with unit_tests_found := true }
      70).breakdown.test_presence.unit_tests.score = 20 ∧
    ({ defaultTestData with tests_failed := 2 } : TestData).tests_failed ≠ 0 ∧
    (calculate_score ⟨false⟩ [] defaultLinterData defaultLinterData defaultLinterData
      defaultLinterData defaultJscpdData { defaultTestData with tests_failed := 2 }
      70).breakdown.test_presence.unit_tests.score = 0 :=
  ⟨rfl, rfl,
   (unit_test_presence_rule ⟨false⟩ [] defaultLinterData defaultLinterData
      defaultLinterData defaultLinterData defaultJscpdData
      { defaultTestData with unit_tests_found := true } 70).1 rfl rfl,
   by decide,
   (unit_test_presence_rule ⟨false⟩ [] defaultLinterData defaultLinterData
      defaultLinterData defaultLinterData defaultJscpdData
      { defaultTestData with tests_failed := 2 } 70).2.2 (by decide)⟩

/-- Claim C7: the final score is monotone — appending one issue to the
complexity-issue list never increases it, and replacing the coverage
percentage with a larger value never decreases it. -/
theorem final_score_monotone (config : Config) (files : List String)
    (ruff eslint swiftlint detekt : LinterData) (jscpd : JscpdData)
    (t : TestData) (thr : ℤ) (i : Issue) (p' : ℚ) :
    ((calculate_score config files
        { ruff with complexity_issues := ruff.complexity_issues ++ [i] }
        eslint swiftlint detekt jscpd t thr).final_score ≤
      (calculate_score config files ruff eslint swiftlint detekt jscpd t
        thr).final_score) ∧
    (t.coverage_percentage ≤ p' →
      (calculate_score config files ruff eslint swiftlint detekt jscpd t
        thr).final_score ≤
      (calculate_score config files ruff eslint swiftlint detekt jscpd
        { t with coverage_percentage := p' } thr).final_score) := by
  constructor
  · rw [calculate_score_final, calculate_score_final, final_score_as_roundEven,
      final_score_as_roundEven]
    apply roundEven_div_mono _ (total_max_pos config)
    unfold total_earned code_quality_total
    have hsm : all_smell_issues
        { ruff with complexity_issues := ruff.complexity_issues ++ [i] }
        eslint swiftlint detekt = all_smell_issues ruff eslint swiftlint detekt := rfl
    rw [hsm]
    have hlen : (all_complexity_issues
        { ruff with complexity_issues := ruff.complexity_issues ++ [i] }
        eslint swiftlint detekt).length =
        (all_complexity_issues ruff eslint swiftlint detekt).length + 1 := by
      simp [all_complexity_issues]
      omega
    have h1 : (calculate_complexity_score (all_complexity_issues
        { ruff with complexity_issues := ruff.complexity_issues ++ [i] }
        eslint swiftlint detekt)).1 ≤
        (calculate_complexity_score (all_complexity_issues ruff eslint swiftlint
          detekt)).1 := by
      rw [ccs_fst, ccs_fst, hlen]
      push_cast
      omega
    have h1' : ((calculate_complexity_score (all_complexity_issues
        { ruff with complexity_issues := ruff.complexity_issues ++ [i] }
        eslint swiftlint detekt)).1 : ℚ) ≤
        ((calculate_complexity_score (all_complexity_issues ruff eslint swiftlint
          detekt)).1 : ℚ) := by exact_mod_cast h1
    linarith
  · intro hcov
    rw [calculate_score_final, calculate_score_final, final_score_as_roundEven,
      final_score_as_roundEven]
    apply roundEven_div_mono _ (total_max_pos config)
    unfold total_earned test_health_total
    have htp : test_presence_total config { t with coverage_percentage := p' } =
        test_presence_total config t := rfl
    rw [htp]
    have h2 : calculate_coverage_score t.coverage_percentage ≤
        calculate_coverage_score p' := coverage_score_mono hcov
    have hres : calculate_test_results_score
        ({ t with coverage_percentage := p' } : TestData).tests_passed
        ({ t with coverage_percentage := p' } : TestData).tests_failed =
        calculate_test_results_score t.tests_passed t.tests_failed := rfl
    rw [hres]
    have h2' : ((calculate_coverage_score t.coverage_percentage : ℤ) : ℚ) ≤
        ((calculate_coverage_score p' : ℤ) : ℚ) := by exact_mod_cast h2
    push_cast
    linarith

/-- Witness for C7: increasing the default coverage percentage from 0 to 85
does not decrease the final score. -/
theorem final_score_monotone_witness :
    defaultTestData.coverage_percentage ≤ 85 ∧
    (calculate_score ⟨false⟩ [] defaultLinterData defaultLinterData defaultLinterData
      defaultLinterData defaultJscpdData defaultTestData 70).final_score ≤
    (calculate_score ⟨false⟩ [] defaultLinterData defaultLinterData defaultLinterData
      defaultLinterData defaultJscpdData
      { defaultTestData with coverage_percentage := 85 } 70).final_score :=
  ⟨show (0 : ℚ) ≤ 85 by norm_num,
   (final_score_monotone ⟨false⟩ [] defaultLinterData defaultLinterData
      defaultLinterData defaultLinterData defaultJscpdData defaultTestData 70
      ⟨Json.str "", Json.num 0, Json.str "", Json.str ""⟩ 85).2
      (show (0 : ℚ) ≤ 85 by norm_num)⟩

/-- Claim C10: the changed-file list affects only the `files_analyzed` and
`files_count` fields of the report; final score, pass flag, breakdown and
raw data are identical for any two changed-file lists. -/
theorem changed_files_only_affect_file_fields (config : Config)
    (files1 files2 : List String) (r e s d : LinterData) (j : JscpdData)
    (t : TestData) (thr : ℤ) :
    calculate_score config files1 r e s d j t thr =
      { calculate_score config files2 r e s d j t thr with
          files_analyzed := files1, files_count := files1.length } := rfl

/-- Counterexample to claim C8 as stated: the spec's policy (normalize
both paths, then suffix-or-substring either way) correlates changed file
`a/b` with reported path `x//a//b//c.py` (its normalized form
`x/a/b/c.py` contains `a/b`), but the code's substring tests use the raw
reported path, which does not contain `a/b`, and neither suffix test
fires, so the code does not correlate them. -/
theorem correlator_counterexample :
    specCorrelates "x//a//b//c.py" "a/b" = true ∧
    normpathStr "a/b" = "a/b" ∧
    pathCorrelates "x//a//b//c.py" (normpathStr "a/b") = false := by
  refine ⟨by decide, by decide, by decide⟩

/-- Claim C8 (amended): the correlator's suffix tests compare the
normalized candidate path with the normalized changed path — so a
normalized suffix match always correlates — while its substring tests
compare the raw candidate path with the normalized changed path; the
example paths `./src/app.py`, `/abs/repo/src/app.py` and `app.py` all
correlate with changed file `src/app.py`, and the Cobertura parser
produces identical aggregated totals for all three conventions. -/
theorem correlator_normalization_amended :
    (∀ f cf : String,
      endsWithL (normpathStr f).data (normpathStr cf).data = true →
      pathCorrelates f (normpathStr cf) = true) ∧
    pathCorrelates "./src/app.py" (normpathStr "src/app.py") = true ∧
    pathCorrelates "/abs/repo/src/app.py" (normpathStr "src/app.py") = true ∧
    pathCorrelates "app.py" (normpathStr "src/app.py") = true ∧
    (parse_cobertura_xml (some (exampleCobertura "./src/app.py"))
      ["src/app.py"]).total_lines = 3 ∧
    (parse_cobertura_xml (some (exampleCobertura "./src/app.py"))
      ["src/app.py"]).covered_lines = 2 ∧
    (parse_cobertura_xml (some (exampleCobertura "./src/app.py"))
        ["src/app.py"]).total_lines =
      (parse_cobertura_xml (some (exampleCobertura "/abs/repo/src/app.py"))
        ["src/app.py"]).total_lines ∧
    (parse_cobertura_xml (some (exampleCobertura "/abs/repo/src/app.py"))
        ["src/app.py"]).total_lines =
      (parse_cobertura_xml (some (exampleCobertura "app.py"))
        ["src/app.py"]).total_lines ∧
    (parse_cobertura_xml (some (exampleCobertura "./src/app.py"))
        ["src/app.py"]).covered_lines =
      (parse_cobertura_xml (some (exampleCobertura "/abs/repo/src/app.py"))
        ["src/app.py"]).covered_lines ∧
    (parse_cobertura_xml (some (exampleCobertura "/abs/repo/src/app.py"))
        ["src/app.py"]).covered_lines =
      (parse_cobertura_xml (some (exampleCobertura "app.py"))
        ["src/app.py"]).covered_lines ∧
    (parse_cobertura_xml (some (exampleCobertura "./src/app.py"))
        ["src/app.py"]).percentage =
      (parse_cobertura_xml (some (exampleCobertura "/abs/repo/src/app.py"))
        ["src/app.py"]).percentage ∧
    (parse_cobertura_xml (some (exampleCobertura "/abs/repo/src/app.py"))
        ["src/app.py"]).percentage =
      (parse_cobertura_xml (some (exampleCobertura "app.py"))
        ["src/app.py"]).percentage := by
  refine ⟨?_, by decide, by decide, by decide, by decide, by decide,
    by decide, by decide, by decide, by decide, rfl, rfl⟩
  intro f cf h
  simp only [pathCorrelates, h, Bool.true_or]

/-- Witness for C8's amended theorem: a concrete normalized-suffix match
correlates. -/
theorem correlator_normalization_amended_witness :
    endsWithL (normpathStr "./pkg/mod.py").data (normpathStr "pkg/mod.py").data = true ∧
    pathCorrelates "./pkg/mod.py" (normpathStr "pkg/mod.py") = true :=
  ⟨by decide,
   correlator_normalization_amended.1 "./pkg/mod.py" "pkg/mod.py" (by decide)⟩

/-- Counterexample to claim C9 as stated: `[{"location": 3}]` is valid
JSON (so `load_json_safe` returns it), yet `parse_ruff_results` raises
`AttributeError` at `issue.get("location", {}).get("row", 0)` instead of
returning the default record. -/
theorem ruff_parser_raises :
    parse_ruff_results (some (Json.arr [Json.obj [("location", Json.num 3)]])) =
      Except.error "AttributeError: object has no attribute get" := rfl

/-- Claim C9 (amended): for every artifact that is missing, empty,
unreadable or not loadable as its base format (modelled as `none`), every
parser returns its fully-populated default record — the same zero-valued
contribution as a tool that reported nothing (an empty report also yields
the default record). -/
theorem parsers_default_on_unloadable :
    parse_ruff_results none = Except.ok defaultLinterData ∧
    parse_eslint_results none = Except.ok defaultLinterData ∧
    parse_swiftlint_results none = Except.ok defaultLinterData ∧
    parse_detekt_results none = Except.ok defaultLinterData ∧
    parse_jscpd_results none = Except.ok defaultJscpdData ∧
    parse_test_results none = defaultTestData ∧
    (∀ changed_files, parse_cobertura_xml none changed_files = defaultCoverageResult) ∧
    (∀ changed_files, parse_lcov none changed_files = defaultCoverageResult) ∧
    (∀ changed_files, parse_istanbul_json none changed_files = defaultCoverageResult) ∧
    parse_ruff_results (some (Json.arr [])) = Except.ok defaultLinterData ∧
    parse_test_results (some (Json.obj [])) = defaultTestData :=
  ⟨rfl, rfl, rfl, rfl, rfl, rfl, fun _ => rfl, fun _ => rfl, fun _ => rfl, rfl, rfl⟩

end QualityScore
